import Mathlib

/-!
Verification of the `Node` class in `node.py` (tryggth/lambda-graph) against
its specification: an undirected attributed graph storing a node map, an
adjacency map and a graph-attribute map.

The embedding models Python values (`PyObj`), Python dictionaries as
key-distinct entry lists, the `Node` object with its five instance
attributes (an attribute that was never assigned is `Option.none`, and
reading it raises `AttributeError`), and each method of the class as a
function returning `Except PyErr _`.
-/

set_option autoImplicit false

/-- A Python value, as far as the graph code observes it: `None`, integers,
strings, tuples and lists.  Lists are unhashable; tuples are hashable when
every element is. -/
inductive PyObj where
  | pynone : PyObj
  | int : Int → PyObj
  | str : String → PyObj
  | tuple : List PyObj → PyObj
  | list : List PyObj → PyObj

/-- The exceptions the embedded methods can raise. -/
inductive PyErr where
  | attributeError : PyErr
  | typeError : PyErr
  | keyError : PyErr
deriving DecidableEq, Repr

mutual

/-- Structural equality of Python values. -/
def PyObj.beq : PyObj → PyObj → Bool
  | PyObj.pynone, PyObj.pynone => true
  | PyObj.int i, PyObj.int j => i == j
  | PyObj.str s, PyObj.str t => s == t
  | PyObj.tuple xs, PyObj.tuple ys => PyObj.beqList xs ys
  | PyObj.list xs, PyObj.list ys => PyObj.beqList xs ys
  | _, _ => false

/-- Elementwise structural equality of lists of Python values. -/
def PyObj.beqList : List PyObj → List PyObj → Bool
  | [], [] => true
  | x :: xs, y :: ys => PyObj.beq x y && PyObj.beqList xs ys
  | _, _ => false

end

mutual

theorem PyObj.beq_iff : ∀ x y : PyObj, PyObj.beq x y = true ↔ x = y
  | PyObj.pynone, PyObj.pynone => by simp [PyObj.beq]
  | PyObj.int i, PyObj.int j => by simp [PyObj.beq]
  | PyObj.str s, PyObj.str t => by simp [PyObj.beq]
  | PyObj.tuple xs, PyObj.tuple ys => by
      simp [PyObj.beq, PyObj.beqList_iff xs ys]
  | PyObj.list xs, PyObj.list ys => by
      simp [PyObj.beq, PyObj.beqList_iff xs ys]
  | PyObj.pynone, PyObj.int _ => by simp [PyObj.beq]
  | PyObj.pynone, PyObj.str _ => by simp [PyObj.beq]
  | PyObj.pynone, PyObj.tuple _ => by simp [PyObj.beq]
  | PyObj.pynone, PyObj.list _ => by simp [PyObj.beq]
  | PyObj.int _, PyObj.pynone => by simp [PyObj.beq]
  | PyObj.int _, PyObj.str _ => by simp [PyObj.beq]
  | PyObj.int _, PyObj.tuple _ => by simp [PyObj.beq]
  | PyObj.int _, PyObj.list _ => by simp [PyObj.beq]
  | PyObj.str _, PyObj.pynone => by simp [PyObj.beq]
  | PyObj.str _, PyObj.int _ => by simp [PyObj.beq]
  | PyObj.str _, PyObj.tuple _ => by simp [PyObj.beq]
  | PyObj.str _, PyObj.list _ => by simp [PyObj.beq]
  | PyObj.tuple _, PyObj.pynone => by simp [PyObj.beq]
  | PyObj.tuple _, PyObj.int _ => by simp [PyObj.beq]
  | PyObj.tuple _, PyObj.str _ => by simp [PyObj.beq]
  | PyObj.tuple _, PyObj.list _ => by simp [PyObj.beq]
  | PyObj.list _, PyObj.pynone => by simp [PyObj.beq]
  | PyObj.list _, PyObj.int _ => by simp [PyObj.beq]
  | PyObj.list _, PyObj.str _ => by simp [PyObj.beq]
  | PyObj.list _, PyObj.tuple _ => by simp [PyObj.beq]

theorem PyObj.beqList_iff : ∀ xs ys : List PyObj, PyObj.beqList xs ys = true ↔ xs = ys
  | [], [] => by simp [PyObj.beqList]
  | x :: xs, y :: ys => by
      simp [PyObj.beqList, PyObj.beq_iff x y, PyObj.beqList_iff xs ys]
  | [], _ :: _ => by simp [PyObj.beqList]
  | _ :: _, [] => by simp [PyObj.beqList]

end

instance : DecidableEq PyObj := fun x y =>
  decidable_of_iff (PyObj.beq x y = true) (PyObj.beq_iff x y)

mutual

/-- Python hashability: `None`, ints and strings are hashable, a tuple is
hashable when all its elements are, a list never is. -/
def PyObj.hashable : PyObj → Bool
  | PyObj.pynone => true
  | PyObj.int _ => true
  | PyObj.str _ => true
  | PyObj.tuple xs => PyObj.hashableList xs
  | PyObj.list _ => false

/-- Hashability of every element of a list of Python values. -/
def PyObj.hashableList : List PyObj → Bool
  | [] => true
  | x :: xs => PyObj.hashable x && PyObj.hashableList xs

end

/-- A Python `dict` is modelled as its entry list (keys pairwise distinct,
in insertion order); `α` is the value type. -/
abbrev PyMap (α : Type) : Type := List (PyObj × α)

/-- A dict of attribute key/value pairs (node, edge or graph attributes). -/
abbrev PyDict : Type := PyMap PyObj

/-- The value of the `node` attribute: node id ↦ node-attribute dict. -/
abbrev NodeMap : Type := PyMap PyDict

/-- The value of one inner adjacency dict: neighbor id ↦ edge-attribute dict. -/
abbrev NbrMap : Type := PyMap PyDict

/-- The value of the `adj` attribute: node id ↦ inner adjacency dict. -/
abbrev AdjMap : Type := PyMap NbrMap

/-- Whether `k` is a key of the dict. -/
def mapHasKey {α : Type} (m : PyMap α) (k : PyObj) : Bool :=
  m.any fun p => p.1 == k

/-- Lookup of key `k` in the dict. -/
def mapGet? {α : Type} (m : PyMap α) (k : PyObj) : Option α :=
  (m.find? fun p => p.1 == k).map Prod.snd

/-- `d[k] = v`: replace the value at `k` in place when the key exists,
otherwise append the new entry (Python dicts keep insertion order). -/
def mapSet {α : Type} (m : PyMap α) (k : PyObj) (v : α) : PyMap α :=
  if mapHasKey m k then m.map fun p => if p.1 == k then (k, v) else p
  else m ++ [(k, v)]

/-- `d.get(k, dflt)` for a hashable key `k`. -/
def dictGetD (d : PyDict) (k dflt : PyObj) : PyObj :=
  (mapGet? d k).getD dflt

/-- `k in d`: raises `TypeError` when the key is unhashable, otherwise
reports whether the key is present. -/
def dictMemKey {α : Type} (d : PyMap α) (k : PyObj) : Except PyErr Bool :=
  if k.hashable then Except.ok (mapHasKey d k) else Except.error PyErr.typeError

theorem mapGet?_cons {α : Type} (p : PyObj × α) (m : PyMap α) (k : PyObj) :
    mapGet? (p :: m) k = if p.1 == k then Option.some p.2 else mapGet? m k := by
  simp only [mapGet?, List.find?]
  cases h : p.1 == k <;> simp [h]

theorem mapHasKey_cons {α : Type} (p : PyObj × α) (m : PyMap α) (k : PyObj) :
    mapHasKey (p :: m) k = (p.1 == k || mapHasKey m k) := by
  simp [mapHasKey]

theorem mapHasKey_eq_isSome {α : Type} (m : PyMap α) (k : PyObj) :
    mapHasKey m k = (mapGet? m k).isSome := by
  induction m with
  | nil => simp [mapHasKey, mapGet?]
  | cons p t ih =>
      rw [mapHasKey_cons, mapGet?_cons]
      cases h : p.1 == k <;> simp [h, ih]

theorem mapGet?_append_absent {α : Type} (m : PyMap α) (k : PyObj) (v : α)
    (h : mapHasKey m k = false) :
    mapGet? (m ++ [(k, v)]) k = Option.some v := by
  induction m with
  | nil => simp [mapGet?_cons]
  | cons p t ih =>
      rw [mapHasKey_cons] at h
      rw [List.cons_append, mapGet?_cons]
      rcases Bool.or_eq_false_iff.mp h with ⟨h1, h2⟩
      simp [h1, ih h2]

theorem pyBeqFalseOfNe {k1 k : PyObj} (hne : k1 ≠ k) : (k1 == k) = false := by
  cases hb : k1 == k with
  | false => rfl
  | true => exact absurd (by simpa using hb) hne

theorem mapGet?_replace_present {α : Type} (m : PyMap α) (k : PyObj) (v : α)
    (h : mapHasKey m k = true) :
    mapGet? (m.map fun p => if p.1 == k then (k, v) else p) k = Option.some v := by
  induction m with
  | nil => simp [mapHasKey] at h
  | cons p t ih =>
      rw [mapHasKey_cons] at h
      rw [List.map_cons, mapGet?_cons]
      cases h1 : p.1 == k
      · have h2 : mapHasKey t k = true := by simpa [h1] using h
        have ih2 := ih h2
        simp [h1] at ih2 ⊢
        exact ih2
      · simp [h1]

theorem mapGet?_set_self {α : Type} (m : PyMap α) (k : PyObj) (v : α) :
    mapGet? (mapSet m k v) k = Option.some v := by
  rw [mapSet]
  cases h : mapHasKey m k
  · rw [if_neg (by simp [h])]
    exact mapGet?_append_absent m k v h
  · rw [if_pos rfl]
    exact mapGet?_replace_present m k v h

theorem mapGet?_append_other {α : Type} (m : PyMap α) (k1 k : PyObj) (v : α)
    (hne : k1 ≠ k) :
    mapGet? (m ++ [(k1, v)]) k = mapGet? m k := by
  induction m with
  | nil => simp [mapGet?, List.find?, pyBeqFalseOfNe hne]
  | cons p t ih =>
      rw [List.cons_append, mapGet?_cons, mapGet?_cons]
      cases h1 : p.1 == k <;> simp [h1, ih]

theorem mapGet?_replace_other {α : Type} (m : PyMap α) (k1 k : PyObj) (v : α)
    (hne : k1 ≠ k) :
    mapGet? (m.map fun p => if p.1 == k1 then (k1, v) else p) k = mapGet? m k := by
  induction m with
  | nil => simp [mapGet?]
  | cons p t ih =>
      rw [List.map_cons, mapGet?_cons, mapGet?_cons]
      cases h1 : p.1 == k1
      · cases h2 : p.1 == k
        · have ih2 := ih
          simp [h1, h2] at ih2 ⊢
          exact ih2
        · simp [h1, h2]
      · have hpk : p.1 = k1 := by simpa using h1
        have hk : (k1 == k) = false := pyBeqFalseOfNe hne
        have ih2 := ih
        simp [h1, hpk, hk] at ih2 ⊢
        exact ih2

theorem mapGet?_set_other {α : Type} (m : PyMap α) (k1 k : PyObj) (v : α)
    (hne : k1 ≠ k) :
    mapGet? (mapSet m k1 v) k = mapGet? m k := by
  rw [mapSet]
  cases h : mapHasKey m k1
  · rw [if_neg (by simp [h])]
    exact mapGet?_append_other m k1 k v hne
  · rw [if_pos rfl]
    exact mapGet?_replace_other m k1 k v hne

theorem mapHasKey_set_self {α : Type} (m : PyMap α) (k : PyObj) (v : α) :
    mapHasKey (mapSet m k v) k = true := by
  rw [mapHasKey_eq_isSome, mapGet?_set_self]
  rfl

/-- The state of a `Node` instance: one field per instance attribute the
source ever mentions.  `Option.none` means the attribute was never
assigned, so reading it raises `AttributeError`. -/
structure NodeObj where
  nodes : Option PyObj
  edges : Option PyObj
  node : Option NodeMap
  adj : Option AdjMap
  graph : Option PyDict

/-- `Node.__init__(self, nodes=None, edges=None, **attr)`: assigns
`self.nodes = nodes` and `self.edges = edges` and nothing else; the
keyword attributes `attr` are accepted but discarded, and `self.node`,
`self.adj`, `self.graph` are left unassigned. -/
def Node.init (nodes edges : PyObj) (attr : PyDict) : NodeObj :=
  { nodes := Option.some nodes
    edges := Option.some edges
    node := Option.none
    adj := Option.none
    graph := Option.none }

/-- The `name` property getter: `return self.graph.get('name', '')`. -/
def Node.nameGet (st : NodeObj) : Except PyErr PyObj :=
  match st.graph with
  | Option.none => Except.error PyErr.attributeError
  | Option.some g => Except.ok (dictGetD g (PyObj.str "name") (PyObj.str ""))

/-- The `name` property setter: `self.graph['name'] = s`. -/
def Node.nameSet (st : NodeObj) (s : PyObj) : Except PyErr NodeObj :=
  match st.graph with
  | Option.none => Except.error PyErr.attributeError
  | Option.some g =>
      Except.ok { st with graph := Option.some (mapSet g (PyObj.str "name") s) }

/-- `Node.__str__`: `return self.name`. -/
def Node.strRepr (st : NodeObj) : Except PyErr PyObj :=
  Node.nameGet st

/-- `Node.__iter__`: `return iter(self.node)` — the keys of the `node`
dict, in dict order, as produced at call time. -/
def Node.iter (st : NodeObj) : Except PyErr (List PyObj) :=
  match st.node with
  | Option.none => Except.error PyErr.attributeError
  | Option.some d => Except.ok (d.map Prod.fst)

/-- `Node.__contains__`: `try: return n in self.node except TypeError:
return False`.  The handler catches only `TypeError`; an
`AttributeError` from reading `self.node` propagates. -/
def Node.contains (st : NodeObj) (n : PyObj) : Except PyErr Bool :=
  let body : Except PyErr Bool :=
    match st.node with
    | Option.none => Except.error PyErr.attributeError
    | Option.some d => dictMemKey d n
  match body with
  | Except.error PyErr.typeError => Except.ok false
  | r => r

/-- `Node.__len__`: `return len(self.node)` — the number of entries of the
`node` dict. -/
def Node.len (st : NodeObj) : Except PyErr Nat :=
  match st.node with
  | Option.none => Except.error PyErr.attributeError
  | Option.some d => Except.ok d.length

/-- `Node.__getitem__`: `return self.adj[n]`.  `self.adj` is read first
(`AttributeError` when unassigned); then dict indexing raises
`TypeError` for an unhashable key and `KeyError` for an absent one. -/
def Node.getitem (st : NodeObj) (n : PyObj) : Except PyErr NbrMap :=
  match st.adj with
  | Option.none => Except.error PyErr.attributeError
  | Option.some a =>
      if n.hashable then
        match mapGet? a n with
        | Option.some nb => Except.ok nb
        | Option.none => Except.error PyErr.keyError
      else Except.error PyErr.typeError

/-- Modelled from the spec: the AttributedGraph data model (spec section 3).
The source under `src/` contains no edge-storage code at all — `addEdge`,
`hasEdge`, `addNode` and the invariant-maintaining bookkeeping exist only in
the spec — so the graph state is modelled from the spec's words: a `node`
map, an `adj` map (node id ↦ neighbor id ↦ edge-attribute dict) and a
`graph` attribute map. -/
structure AttributedGraph where
  node : NodeMap
  adj : AdjMap
  graph : PyDict

/-- Modelled from the spec: the attribute-merge semantics of `addNode` and
`addEdge` — "new attrs overlay existing on repeated calls", last write wins
per key. -/
def mergeAttrs (old new : PyDict) : PyDict :=
  new.foldl (fun acc p => mapSet acc p.1 p.2) old

/-- Modelled from the spec: the implicit node creation of `addEdge` —
"ensures u and v exist as nodes (auto-creating with empty attributes if
absent)", with `adj[id]` made to exist for a newly created node. -/
def AttributedGraph.ensureNode (g : AttributedGraph) (u : PyObj) : AttributedGraph :=
  { g with
    node := if mapHasKey g.node u then g.node else mapSet g.node u []
    adj := if mapHasKey g.adj u then g.adj else mapSet g.adj u [] }

/-- Modelled from the spec: `addEdge(u, v, attrs?)` — ensure both endpoints
exist, merge `attrs` over the existing edge attributes, and set both
`adj[u][v]` and `adj[v][u]` to the merged map (only `adj[u][u]` for a
self-loop). -/
def AttributedGraph.addEdge (g : AttributedGraph) (u v : PyObj) (attrs : PyDict) :
    AttributedGraph :=
  let g1 := (g.ensureNode u).ensureNode v
  let merged := mergeAttrs (((mapGet? g1.adj u).bind fun nb => mapGet? nb v).getD []) attrs
  let adjU := (mapGet? g1.adj u).getD []
  let a1 := mapSet g1.adj u (mapSet adjU v merged)
  if u = v then { g1 with adj := a1 }
  else
    let adjV := (mapGet? a1 v).getD []
    { g1 with adj := mapSet a1 v (mapSet adjV u merged) }

/-- Modelled from the spec: `hasEdge(u, v)` — "true iff `v in adj[u]`
(requires u present; returns false, not error, if u absent)". -/
def AttributedGraph.hasEdge (g : AttributedGraph) (u v : PyObj) : Bool :=
  match mapGet? g.adj u with
  | Option.none => false
  | Option.some nb => mapHasKey nb v

/-- The edge-attribute map stored for the ordered pair `(u, v)`: the content
of `adj[u][v]` when present. -/
def AttributedGraph.edgeAttrs (g : AttributedGraph) (u v : PyObj) : Option PyDict :=
  (mapGet? g.adj u).bind fun nb => mapGet? nb v

/-! ## Concrete states used by the witnesses -/

/-- A state whose `node` attribute holds the one-entry dict `{1: {}}`. -/
def stWithNode : NodeObj :=
  { nodes := Option.some PyObj.pynone
    edges := Option.some PyObj.pynone
    node := Option.some [(PyObj.int 1, [])]
    adj := Option.none
    graph := Option.none }

/-- A state whose `graph` attribute holds the empty dict. -/
def stWithGraph : NodeObj :=
  { nodes := Option.some PyObj.pynone
    edges := Option.some PyObj.pynone
    node := Option.none
    adj := Option.none
    graph := Option.some [] }

/-- A state whose `adj` attribute holds the dict `{1: {2: {}}}`. -/
def stWithAdj : NodeObj :=
  { nodes := Option.some PyObj.pynone
    edges := Option.some PyObj.pynone
    node := Option.none
    adj := Option.some [(PyObj.int 1, [(PyObj.int 2, [])])]
    graph := Option.none }

/-- The constructor argument `nodes=[1,2,3]` of the C1 scenario. -/
def c1Nodes : PyObj := PyObj.list [PyObj.int 1, PyObj.int 2, PyObj.int 3]

/-- The constructor argument `edges=[(1,2),(2,3)]` of the C1 scenario. -/
def c1Edges : PyObj :=
  PyObj.list [PyObj.tuple [PyObj.int 1, PyObj.int 2],
              PyObj.tuple [PyObj.int 2, PyObj.int 3]]

/-! ## Claim theorems -/

/-- Claim C1: constructing with nodes=[1,2,3] and edges=[(1,2),(2,3)] does
not initialize the `node`, `adj` and `graph` maps and does not add the
seeds: the constructor leaves all three attributes unassigned, so the
scenario's `nodeCount()` and the membership test raise `AttributeError`
instead of witnessing three nodes and two edges. -/
theorem C1_construct_seeds_ignored :
    (Node.init c1Nodes c1Edges []).node = Option.none ∧
    (Node.init c1Nodes c1Edges []).adj = Option.none ∧
    (Node.init c1Nodes c1Edges []).graph = Option.none ∧
    Node.len (Node.init c1Nodes c1Edges []) = Except.error PyErr.attributeError ∧
    Node.contains (Node.init c1Nodes c1Edges []) (PyObj.int 1) =
      Except.error PyErr.attributeError :=
  ⟨rfl, rfl, rfl, rfl, rfl⟩

/-- Claim C3: on every freshly constructed object on which no attribute has
been set externally, each public query operation — `__len__`, `__iter__`,
`__str__`, `__contains__`, `__getitem__` and the `name` getter — raises
`AttributeError`, for any constructor arguments and any query key; the
`TypeError` handler in `__contains__` does not catch it. -/
theorem C3_fresh_queries_raise (nodes edges : PyObj) (attr : PyDict) (n : PyObj) :
    Node.len (Node.init nodes edges attr) = Except.error PyErr.attributeError ∧
    Node.iter (Node.init nodes edges attr) = Except.error PyErr.attributeError ∧
    Node.strRepr (Node.init nodes edges attr) = Except.error PyErr.attributeError ∧
    Node.contains (Node.init nodes edges attr) n = Except.error PyErr.attributeError ∧
    Node.getitem (Node.init nodes edges attr) n = Except.error PyErr.attributeError ∧
    Node.nameGet (Node.init nodes edges attr) = Except.error PyErr.attributeError :=
  ⟨rfl, rfl, rfl, rfl, rfl, rfl⟩

/-- Witness for C3 at concrete constructor arguments and query key. -/
theorem C3_fresh_queries_raise_witness :
    Node.len (Node.init c1Nodes c1Edges []) = Except.error PyErr.attributeError ∧
    Node.iter (Node.init c1Nodes c1Edges []) = Except.error PyErr.attributeError ∧
    Node.strRepr (Node.init c1Nodes c1Edges []) = Except.error PyErr.attributeError ∧
    Node.contains (Node.init c1Nodes c1Edges []) (PyObj.int 1) =
      Except.error PyErr.attributeError ∧
    Node.getitem (Node.init c1Nodes c1Edges []) (PyObj.int 1) =
      Except.error PyErr.attributeError ∧
    Node.nameGet (Node.init c1Nodes c1Edges []) = Except.error PyErr.attributeError :=
  C3_fresh_queries_raise c1Nodes c1Edges [] (PyObj.int 1)

/-- Claim C4: `__init__` assigns only `self.nodes` and `self.edges`, never
`self.node`, `self.adj` or `self.graph`, and no other operation reads the
two assigned fields: every other operation's result is the same for any two
choices of constructor arguments. -/
theorem C4_init_frame (n1 e1 : PyObj) (a1 : PyDict) (n2 e2 : PyObj) (a2 : PyDict)
    (k : PyObj) :
    (Node.init n1 e1 a1).nodes = Option.some n1 ∧
    (Node.init n1 e1 a1).edges = Option.some e1 ∧
    (Node.init n1 e1 a1).node = Option.none ∧
    (Node.init n1 e1 a1).adj = Option.none ∧
    (Node.init n1 e1 a1).graph = Option.none ∧
    Node.len (Node.init n1 e1 a1) = Node.len (Node.init n2 e2 a2) ∧
    Node.iter (Node.init n1 e1 a1) = Node.iter (Node.init n2 e2 a2) ∧
    Node.strRepr (Node.init n1 e1 a1) = Node.strRepr (Node.init n2 e2 a2) ∧
    Node.nameGet (Node.init n1 e1 a1) = Node.nameGet (Node.init n2 e2 a2) ∧
    Node.contains (Node.init n1 e1 a1) k = Node.contains (Node.init n2 e2 a2) k ∧
    Node.getitem (Node.init n1 e1 a1) k = Node.getitem (Node.init n2 e2 a2) k :=
  ⟨rfl, rfl, rfl, rfl, rfl, rfl, rfl, rfl, rfl, rfl, rfl⟩

/-- Witness for C4 at two concrete argument lists and a concrete key. -/
theorem C4_init_frame_witness :
    (Node.init c1Nodes c1Edges []).nodes = Option.some c1Nodes ∧
    (Node.init c1Nodes c1Edges []).edges = Option.some c1Edges ∧
    (Node.init c1Nodes c1Edges []).node = Option.none ∧
    (Node.init c1Nodes c1Edges []).adj = Option.none ∧
    (Node.init c1Nodes c1Edges []).graph = Option.none ∧
    Node.len (Node.init c1Nodes c1Edges []) =
      Node.len (Node.init PyObj.pynone PyObj.pynone []) ∧
    Node.iter (Node.init c1Nodes c1Edges []) =
      Node.iter (Node.init PyObj.pynone PyObj.pynone []) ∧
    Node.strRepr (Node.init c1Nodes c1Edges []) =
      Node.strRepr (Node.init PyObj.pynone PyObj.pynone []) ∧
    Node.nameGet (Node.init c1Nodes c1Edges []) =
      Node.nameGet (Node.init PyObj.pynone PyObj.pynone []) ∧
    Node.contains (Node.init c1Nodes c1Edges []) (PyObj.int 1) =
      Node.contains (Node.init PyObj.pynone PyObj.pynone []) (PyObj.int 1) ∧
    Node.getitem (Node.init c1Nodes c1Edges []) (PyObj.int 1) =
      Node.getitem (Node.init PyObj.pynone PyObj.pynone []) (PyObj.int 1) :=
  C4_init_frame c1Nodes c1Edges [] PyObj.pynone PyObj.pynone [] (PyObj.int 1)

/-- Claim C2: on every state whose `node` attribute map is set (the graph
states of the data model), `containsNode` returns a boolean and never
raises; for an unhashable query key the `TypeError` is caught and the
result is `false`. -/
theorem C2_contains_never_raises (st : NodeObj) (d : NodeMap) (n : PyObj)
    (h : st.node = Option.some d) :
    (∃ b, Node.contains st n = Except.ok b) ∧
    (PyObj.hashable n = false → Node.contains st n = Except.ok false) := by
  have hc : Node.contains st n =
      if PyObj.hashable n then Except.ok (mapHasKey d n) else Except.ok false := by
    unfold Node.contains dictMemKey
    rw [h]
    cases hh : PyObj.hashable n <;> simp [hh]
  rw [hc]
  cases hh : PyObj.hashable n <;> simp [hh]

/-- Witness for C2: on `stWithNode` the unhashable query `[]` yields
`False` without an exception. -/
theorem C2_contains_never_raises_witness :
    stWithNode.node = Option.some [(PyObj.int 1, [])] ∧
    ((∃ b, Node.contains stWithNode (PyObj.list []) = Except.ok b) ∧
     (PyObj.hashable (PyObj.list []) = false →
       Node.contains stWithNode (PyObj.list []) = Except.ok false)) :=
  ⟨rfl, C2_contains_never_raises stWithNode [(PyObj.int 1, [])] (PyObj.list []) rfl⟩

/-- Claim C6: on every state with the `graph` attribute map present,
setting the name to `s` and then calling `__str__` returns exactly `s`. -/
theorem C6_name_roundtrip (st : NodeObj) (g : PyDict) (s : String)
    (h : st.graph = Option.some g) :
    Except.bind (Node.nameSet st (PyObj.str s)) Node.strRepr =
      Except.ok (PyObj.str s) := by
  unfold Node.nameSet
  rw [h]
  show Node.strRepr _ = _
  unfold Node.strRepr Node.nameGet
  simp [dictGetD, mapGet?_set_self]

/-- Witness for C6: setting the name to "demo" on `stWithGraph` makes
`__str__` return "demo". -/
theorem C6_name_roundtrip_witness :
    stWithGraph.graph = Option.some [] ∧
    Except.bind (Node.nameSet stWithGraph (PyObj.str "demo")) Node.strRepr =
      Except.ok (PyObj.str "demo") :=
  ⟨rfl, C6_name_roundtrip stWithGraph [] "demo" rfl⟩

/-- Claim C7: on every state whose `graph` attribute map is present but has
no `name` key, the name getter returns the empty string. -/
theorem C7_name_default (st : NodeObj) (g : PyDict)
    (h : st.graph = Option.some g) (hn : mapHasKey g (PyObj.str "name") = false) :
    Node.nameGet st = Except.ok (PyObj.str "") := by
  unfold Node.nameGet
  rw [h]
  cases hg : mapGet? g (PyObj.str "name") with
  | none => simp [dictGetD, hg]
  | some v =>
      rw [mapHasKey_eq_isSome, hg] at hn
      simp at hn

/-- Witness for C7: on `stWithGraph` (empty `graph` dict) the getter
returns the empty string. -/
theorem C7_name_default_witness :
    stWithGraph.graph = Option.some [] ∧
    mapHasKey ([] : PyDict) (PyObj.str "name") = false ∧
    Node.nameGet stWithGraph = Except.ok (PyObj.str "") :=
  ⟨rfl, rfl, C7_name_default stWithGraph [] rfl rfl⟩

/-- Claim C8: on every state whose `node` attribute map is set, `__len__`
returns exactly the number of entries of the `node` map. -/
theorem C8_len_counts_node_entries (st : NodeObj) (d : NodeMap)
    (h : st.node = Option.some d) :
    Node.len st = Except.ok d.length := by
  unfold Node.len
  rw [h]

/-- Witness for C8: on `stWithNode` (one node entry) `__len__` returns 1. -/
theorem C8_len_counts_node_entries_witness :
    stWithNode.node = Option.some [(PyObj.int 1, [])] ∧
    Node.len stWithNode = Except.ok 1 :=
  ⟨rfl, C8_len_counts_node_entries stWithNode [(PyObj.int 1, [])] rfl⟩

/-- Claim C9: on every state whose `node` attribute map is set, `__iter__`
yields the finite sequence of exactly the keys of the `node` map as they
are at call time; the result is a pure function of the current state, so
every call yields this same fresh sequence. -/
theorem C9_iter_yields_node_keys (st : NodeObj) (d : NodeMap)
    (h : st.node = Option.some d) :
    Node.iter st = Except.ok (d.map Prod.fst) := by
  unfold Node.iter
  rw [h]

/-- Witness for C9: on `stWithNode` the iteration yields the single key 1. -/
theorem C9_iter_yields_node_keys_witness :
    stWithNode.node = Option.some [(PyObj.int 1, [])] ∧
    Node.iter stWithNode = Except.ok [PyObj.int 1] :=
  ⟨rfl, C9_iter_yields_node_keys stWithNode [(PyObj.int 1, [])] rfl⟩

/-- Claim C10: on every state whose `adj` attribute map is set, for a node
id present in it (a dict key, hence hashable), `__getitem__` returns
exactly `adj[n]`, the dict mapping each neighbor of `n` to that edge's
attribute dict. -/
theorem C10_getitem_returns_adj_entry (st : NodeObj) (a : AdjMap) (n : PyObj)
    (nb : NbrMap) (h : st.adj = Option.some a) (hn : mapGet? a n = Option.some nb)
    (hh : PyObj.hashable n = true) :
    Node.getitem st n = Except.ok nb := by
  unfold Node.getitem
  rw [h]
  simp [hh, hn]

/-- Witness for C10: on `stWithAdj` with `adj = {1: {2: {}}}`, `G[1]`
returns `{2: {}}`. -/
theorem C10_getitem_returns_adj_entry_witness :
    stWithAdj.adj = Option.some [(PyObj.int 1, [(PyObj.int 2, [])])] ∧
    Node.getitem stWithAdj (PyObj.int 1) = Except.ok [(PyObj.int 2, [])] :=
  ⟨rfl, C10_getitem_returns_adj_entry stWithAdj [(PyObj.int 1, [(PyObj.int 2, [])])]
    (PyObj.int 1) [(PyObj.int 2, [])] rfl rfl rfl⟩

/-- Claim C5: for all node ids u, v, every graph state and any edge
attributes, immediately after `addEdge(u, v)` both `hasEdge(u, v)` and
`hasEdge(v, u)` hold, and the attribute maps stored at `adj[u][v]` and
`adj[v][u]` are identical in content. -/
theorem C5_addEdge_symmetric (g : AttributedGraph) (u v : PyObj) (attrs : PyDict) :
    (g.addEdge u v attrs).hasEdge u v = true ∧
    (g.addEdge u v attrs).hasEdge v u = true ∧
    (g.addEdge u v attrs).edgeAttrs u v = (g.addEdge u v attrs).edgeAttrs v u := by
  by_cases huv : u = v
  · subst huv
    unfold AttributedGraph.addEdge AttributedGraph.hasEdge AttributedGraph.edgeAttrs
    rw [if_pos rfl]
    simp [mapGet?_set_self, mapHasKey_set_self]
  · have hvu : v ≠ u := Ne.symm huv
    unfold AttributedGraph.addEdge AttributedGraph.hasEdge AttributedGraph.edgeAttrs
    rw [if_neg huv]
    simp only []
    simp [mapGet?_set_self, mapHasKey_set_self, mapGet?_set_other, hvu, huv]

/-- Witness for C5 at a concrete graph and edge: adding the edge (1, 2) to
the empty graph makes both directions present with equal attributes. -/
theorem C5_addEdge_symmetric_witness :
    (AttributedGraph.addEdge ⟨[], [], []⟩ (PyObj.int 1) (PyObj.int 2) []).hasEdge
      (PyObj.int 1) (PyObj.int 2) = true ∧
    (AttributedGraph.addEdge ⟨[], [], []⟩ (PyObj.int 1) (PyObj.int 2) []).hasEdge
      (PyObj.int 2) (PyObj.int 1) = true ∧
    (AttributedGraph.addEdge ⟨[], [], []⟩ (PyObj.int 1) (PyObj.int 2) []).edgeAttrs
      (PyObj.int 1) (PyObj.int 2) =
    (AttributedGraph.addEdge ⟨[], [], []⟩ (PyObj.int 1) (PyObj.int 2) []).edgeAttrs
      (PyObj.int 2) (PyObj.int 1) :=
  C5_addEdge_symmetric ⟨[], [], []⟩ (PyObj.int 1) (PyObj.int 2) []
